import Mathlib

/-!
# `rclone serve s3`: bootstrap, hash negotiation and server lifecycle

A shallow embedding of `cmd/serve/s3/s3.go`: the default options, the flag
registration of `init`, the `RunE` function of the cobra command (hash
resolution, then the closure handed to `cmd.Run`) and `run`.

Calls into collaborators whose code is not part of `s3.go` are recorded as
events on a trace, so that the order of effects can be stated; their results
are parameters of the model (`Env`).
-/

namespace ServeS3

/-! ## Data model -/

/-- Modelled from the spec: the type `hash.Type` of package `fs/hash` (not in
`s3.go`), the "hash-algorithm identifier". An identifier is a number, as a Go
`int`-based type is. -/
structure HashType where
  id : Nat
deriving DecidableEq, Repr

namespace HashType

/-- Modelled from the spec: the constant `hash.None` (package `fs/hash`), the
hash kind meaning that hashing is disabled. -/
def None : HashType := ⟨0⟩

/-- Modelled from the spec: the constant `hash.MD5` (package `fs/hash`), the
identifier of the algorithm `MD5`; it is an algorithm, hence not `None`. -/
def MD5 : HashType := ⟨1⟩

end HashType

/-- A Go `error` value: a plain error with its text, or an error built by
`fmt.Errorf(context + "%w", inner)`. -/
inductive GoError where
  | msg (text : String)
  | wrap (context : String) (inner : GoError)
deriving DecidableEq, Repr

namespace GoError

/-- The method `Error()`: the text of the error. -/
def Error : GoError → String
  | msg text => text
  | wrap context inner => context ++ inner.Error

/-- The method `Unwrap()` of an error built with `%w`. -/
def Unwrap : GoError → Option GoError
  | msg _ => none
  | wrap _ inner => some inner

end GoError

/-- The struct `Options`, with the fields that `DefaultOpt` and `init` of
`s3.go` use. `AuthConfig` and `Config` stand for `libhttp.AuthConfig` and
`libhttp.Config`, which the command treats as opaque values. -/
structure Options (AuthConfig Config : Type) where
  Auth : AuthConfig
  HTTP : Config
  pathBucketMode : Bool
  hashName : String
  hashType : HashType
  authPair : List String
  noCleanup : Bool

/-- The filesystem handle `f` returned by `cmd.NewFsSrc(args)`, as far as
`RunE` looks at it: `f.Hashes()` is the set of hash kinds it advertises. -/
structure Fs where
  Hashes : List HashType
deriving DecidableEq, Repr

/-- The router of an HTTP server (`chi.Router`), identified by its server. -/
structure Router where
  id : Nat
deriving DecidableEq, Repr

/-- A value of `*libhttp.Server`. -/
structure Server where
  id : Nat
deriving DecidableEq, Repr

/-- The method `server.Router()`: the one router instance of the server. -/
def Server.Router (s : Server) : Router := ⟨s.id⟩

/-- The struct `serveCmd`: "server contains everything to run the server". -/
structure serveCmd where
  server : Server
deriving DecidableEq, Repr

/-- The effects of `RunE` and `run` on their collaborators, in program order. -/
inductive Event where
  /-- The S3 handler is created: `newServer(ctx, f, &Opt)`. -/
  | newServer (f : Fs)
  /-- The HTTP server is constructed: `libhttp.NewServer(ctx, ...)`. -/
  | NewServer
  /-- A middleware is installed: `router.Use(middleware.SetHeader(key, value))`. -/
  | Use (router : Router) (key value : String)
  /-- The server starts serving: `server.Serve()`. -/
  | Serve (server : Server)
  /-- The S3 handler registers its routes: `s.Bind(router)`. -/
  | Bind (router : Router)
  /-- The caller blocks until the server stops: `server.Wait()`. -/
  | Wait (server : Server)
deriving DecidableEq, Repr

/-- What the collaborators of `s3.go` answer: the method `hash.Type.Set`
(given the receiver's value and the name, the receiver's new value and the
error), the method `hash.Set.GetOne`, the constructor `libhttp.NewServer`
(given `WithConfig(opt.HTTP)` and `WithAuth(opt.Auth)`) and the constant
`fs.Version`. -/
structure Env (AuthConfig Config : Type) where
  Set : HashType → String → HashType × Option GoError
  GetOne : List HashType → HashType
  NewServer : Config → AuthConfig → Except GoError Server
  Version : String

/-- The process state that `RunE` works on: the package variable `Opt` and the
trace of effects so far. -/
structure State (AuthConfig Config : Type) where
  Opt : Options AuthConfig Config
  trace : List Event

variable {AuthConfig Config : Type}

/-- Record one effect at the end of the trace. -/
def State.emit (st : State AuthConfig Config) (e : Event) : State AuthConfig Config :=
  ⟨st.Opt, st.trace ++ [e]⟩

/-- The assignment `Opt.hashType = h`. -/
def State.setHashType (st : State AuthConfig Config) (h : HashType) :
    State AuthConfig Config :=
  ⟨⟨st.Opt.Auth, st.Opt.HTTP, st.Opt.pathBucketMode, st.Opt.hashName, h,
    st.Opt.authPair, st.Opt.noCleanup⟩, st.trace⟩

/-- The state in which the command starts: `Opt` as the flags left it, and no
effect yet. -/
def State.start (opt : Options AuthConfig Config) : State AuthConfig Config :=
  ⟨opt, []⟩

/-! ## Defaults and flags -/

/-- The variable `DefaultOpt`; `defaultAuthCfg` and `defaultCfg` are the values
of `libhttp.DefaultAuthCfg()` and `libhttp.DefaultCfg()`. The field `authPair`
is not set and so is `nil`. -/
def DefaultOpt (defaultAuthCfg : AuthConfig) (defaultCfg : Config) :
    Options AuthConfig Config :=
  ⟨defaultAuthCfg, defaultCfg, true, "MD5", HashType.MD5, [], false⟩

/-- The variable `Opt` as initialised: `var Opt = DefaultOpt`. -/
def Opt (defaultAuthCfg : AuthConfig) (defaultCfg : Config) :
    Options AuthConfig Config :=
  DefaultOpt defaultAuthCfg defaultCfg

/-- One command-line override of a flag that `init` registers on `Opt`. -/
inductive Flag (AuthConfig Config : Type) where
  /-- A flag of `libhttp.AddAuthFlagsPrefix`, writing into `Opt.Auth`. -/
  | auth (set : AuthConfig → AuthConfig)
  /-- A flag of `libhttp.AddHTTPFlagsPrefix`, writing into `Opt.HTTP`. -/
  | http (set : Config → Config)
  /-- The flag `--force-path-style`. -/
  | forcePathStyle (v : Bool)
  /-- The flag `--etag-hash`. -/
  | etagHash (v : String)
  /-- The flag `--s3-authkey`, a string array: each use adds one value. -/
  | s3Authkey (v : String)
  /-- The flag `--no-cleanup`. -/
  | noCleanup (v : Bool)

/-- The effect of one override on the variable the flag is bound to. -/
def applyFlag (o : Options AuthConfig Config) :
    Flag AuthConfig Config → Options AuthConfig Config
  | .auth set =>
      ⟨set o.Auth, o.HTTP, o.pathBucketMode, o.hashName, o.hashType, o.authPair, o.noCleanup⟩
  | .http set =>
      ⟨o.Auth, set o.HTTP, o.pathBucketMode, o.hashName, o.hashType, o.authPair, o.noCleanup⟩
  | .forcePathStyle v =>
      ⟨o.Auth, o.HTTP, v, o.hashName, o.hashType, o.authPair, o.noCleanup⟩
  | .etagHash v =>
      ⟨o.Auth, o.HTTP, o.pathBucketMode, v, o.hashType, o.authPair, o.noCleanup⟩
  | .s3Authkey v =>
      ⟨o.Auth, o.HTTP, o.pathBucketMode, o.hashName, o.hashType, o.authPair ++ [v], o.noCleanup⟩
  | .noCleanup v =>
      ⟨o.Auth, o.HTTP, o.pathBucketMode, o.hashName, o.hashType, o.authPair, v⟩

/-- The options after the command line has been read: every flag defaults to
the current value of its field of `Opt`, and the overrides are applied in
order. -/
def parseFlags (opt : Options AuthConfig Config) (overrides : List (Flag AuthConfig Config)) :
    Options AuthConfig Config :=
  overrides.foldl applyFlag opt

/-! ## The command -/

/-- The hash resolution step of `RunE`: when `Opt.hashName` is `auto`,
`Opt.hashType = f.Hashes().GetOne()`; else, when `Opt.hashName` is not empty,
`err := Opt.hashType.Set(Opt.hashName)`, and `RunE` returns `err` if it is not
`nil`; else nothing. `Set` has a pointer receiver, so it writes `Opt.hashType`.
The second component is the error that makes `RunE` return at once. -/
def resolveHash (env : Env AuthConfig Config) (f : Fs) (st : State AuthConfig Config) :
    State AuthConfig Config × Option GoError :=
  if st.Opt.hashName = "auto" then
    (st.setHashType (env.GetOne f.Hashes), none)
  else if st.Opt.hashName ≠ "" then
    let r := env.Set st.Opt.hashType st.Opt.hashName
    (st.setHashType r.1, r.2)
  else
    (st, none)

/-- The function `run(ctx, opt)`: it receives the options by value. -/
def run (env : Env AuthConfig Config) (st : State AuthConfig Config)
    (opt : Options AuthConfig Config) :
    State AuthConfig Config × Except GoError serveCmd :=
  let st1 := st.emit Event.NewServer
  match env.NewServer opt.HTTP opt.Auth with
  | .error err => (st1, .error (GoError.wrap "failed to init server: " err))
  | .ok server =>
    let router := server.Router
    let st2 := st1.emit (Event.Use router "Server" ("rclone/" ++ env.Version))
    let st3 := st2.emit (Event.Serve server)
    (st3, .ok ⟨server⟩)

/-- The closure that `RunE` hands to `cmd.Run`. -/
def closure (env : Env AuthConfig Config) (f : Fs) (st : State AuthConfig Config) :
    State AuthConfig Config × Option GoError :=
  let st1 := st.emit (Event.newServer f)
  match run env st1 st1.Opt with
  | (st2, .error err) => (st2, some err)
  | (st2, .ok sc) =>
    let router := sc.server.Router
    let st3 := st2.emit (Event.Bind router)
    let st4 := st3.emit (Event.Wait sc.server)
    (st4, none)

/-- Modelled from the spec: the function `cmd.Run(false, false, command, fn)`
of package `cmd` (not in `s3.go`): "all pre-serve errors are fatal and halt
startup; no retries are attempted". The function is run once and its error is
what the process reports. -/
def cmdRun (fn : State AuthConfig Config → State AuthConfig Config × Option GoError)
    (st : State AuthConfig Config) : State AuthConfig Config × Option GoError :=
  fn st

/-- What an execution of `RunE` leaves: the final state, the error `RunE`
returns, and the error the closure handed to `cmd.Run`. -/
structure Result (AuthConfig Config : Type) where
  st : State AuthConfig Config
  err : Option GoError
  cmdErr : Option GoError

/-- The function `RunE` of the command, from the point where
`cmd.CheckArgs(1, 1, command, args)` and `f := cmd.NewFsSrc(args)` have
returned. -/
def RunE (env : Env AuthConfig Config) (f : Fs) (st : State AuthConfig Config) :
    Result AuthConfig Config :=
  match resolveHash env f st with
  | (st1, some err) => ⟨st1, some err, none⟩
  | (st1, none) =>
    let r := cmdRun (closure env f) st1
    ⟨r.1, none, r.2⟩

/-! ## The hash package, as the specification describes it -/

/-- Modelled from the spec: the method `hash.Type.Set` of package `fs/hash`
(not in `s3.go`): "attempt to parse it as a recognized hash-algorithm name; if
parsing fails, fail immediately with a configuration error
(`UnrecognizedHashAlgorithm`)". `names` is the table of the recognized names;
on failure the receiver keeps its value. -/
def HashType.Set (names : String → Option HashType) (h : HashType) (s : String) :
    HashType × Option GoError :=
  match names s with
  | some k => (k, none)
  | none => (h, some (GoError.msg ("UnrecognizedHashAlgorithm: " ++ s)))

/-- Modelled from the spec: the method `hash.Set.GetOne` of package `fs/hash`
(not in `s3.go`): "select any one advertised algorithm", "chosen
deterministically for a fixed capability set". The advertised kind with the
least identifier is taken; an empty set gives `None`. -/
def GetOne : List HashType → HashType
  | [] => HashType.None
  | h :: t => t.foldl (fun a b => if b.id < a.id then b else a) h

/-- The collaborators with the hash package as the specification describes
it. -/
def specEnv (names : String → Option HashType)
    (NewServer : Config → AuthConfig → Except GoError Server) (Version : String) :
    Env AuthConfig Config :=
  ⟨HashType.Set names, GetOne, NewServer, Version⟩

/-- The state with `Opt.authPair` replaced, all else kept. -/
def State.withAuthPair (st : State AuthConfig Config) (tokens : List String) :
    State AuthConfig Config :=
  ⟨⟨st.Opt.Auth, st.Opt.HTTP, st.Opt.pathBucketMode, st.Opt.hashName, st.Opt.hashType,
    tokens, st.Opt.noCleanup⟩, st.trace⟩

/-- The lifecycle order as the specification words it: `Constructed →
MiddlewareAttached → HandlerBound → Serving → Stopped`. -/
def specOrder (s : Server) (version : String) : List Event :=
  [Event.NewServer, Event.Use s.Router "Server" ("rclone/" ++ version),
   Event.Bind s.Router, Event.Serve s, Event.Wait s]

/-- The lifecycle order that `run` and the closure of `RunE` produce:
`Constructed → MiddlewareAttached → Serving → HandlerBound → Stopped`. -/
def codeOrder (s : Server) (version : String) : List Event :=
  [Event.NewServer, Event.Use s.Router "Server" ("rclone/" ++ version),
   Event.Serve s, Event.Bind s.Router, Event.Wait s]

/-! ## Sample collaborators, for evaluating the model -/

/-- A table of names that knows `MD5` only. -/
def sampleNames (s : String) : Option HashType :=
  if s = "MD5" then some HashType.MD5 else none

/-- A server construction that succeeds with server `7`. -/
def sampleNewServer (_ : Unit) (_ : Unit) : Except GoError Server := .ok ⟨7⟩

/-- A server construction that fails. -/
def failingNewServer (_ : Unit) (_ : Unit) : Except GoError Server :=
  .error (GoError.msg "listen tcp: address already in use")

/-- Sample collaborators: `sampleNames`, a working server, version `v1.62.0`. -/
def sampleEnv : Env Unit Unit := specEnv sampleNames sampleNewServer "v1.62.0"

/-- Sample collaborators whose server construction fails. -/
def failingEnv : Env Unit Unit := specEnv sampleNames failingNewServer "v1.62.0"

/-- A filesystem advertising two hash kinds, `MD5` and kind `2`. -/
def sampleFs : Fs := ⟨[⟨2⟩, HashType.MD5]⟩

/-- The options with `authPair` replaced, all else kept. -/
def Options.withAuthPair (o : Options AuthConfig Config) (tokens : List String) :
    Options AuthConfig Config :=
  ⟨o.Auth, o.HTTP, o.pathBucketMode, o.hashName, o.hashType, tokens, o.noCleanup⟩

/-- The value that an override gives to `--s3-authkey`, if it is one. -/
def Flag.authkey : Flag AuthConfig Config → Option String
  | .s3Authkey v => some v
  | _ => none

/-- The command line without its `--s3-authkey` overrides. -/
def dropAuthkeys (overrides : List (Flag AuthConfig Config)) : List (Flag AuthConfig Config) :=
  overrides.filter (fun x => (Flag.authkey x).isNone)

/-! ## Lemmas on the model -/

theorem setHashType_trace (st : State AuthConfig Config) (h : HashType) :
    (st.setHashType h).trace = st.trace := rfl

theorem resolveHash_trace (env : Env AuthConfig Config) (f : Fs)
    (st : State AuthConfig Config) : (resolveHash env f st).1.trace = st.trace := by
  unfold resolveHash
  split
  · rfl
  · split <;> rfl

theorem resolveHash_config (env : Env AuthConfig Config) (f : Fs)
    (st : State AuthConfig Config) :
    (resolveHash env f st).1.Opt.HTTP = st.Opt.HTTP ∧
    (resolveHash env f st).1.Opt.Auth = st.Opt.Auth := by
  unfold resolveHash
  split
  · exact ⟨rfl, rfl⟩
  · split <;> exact ⟨rfl, rfl⟩

theorem run_ok (env : Env AuthConfig Config) (st : State AuthConfig Config)
    (opt : Options AuthConfig Config) (s : Server)
    (h : env.NewServer opt.HTTP opt.Auth = .ok s) :
    run env st opt =
      (((st.emit Event.NewServer).emit
          (Event.Use s.Router "Server" ("rclone/" ++ env.Version))).emit (Event.Serve s),
        .ok ⟨s⟩) := by
  unfold run
  simp only [h]

theorem run_error (env : Env AuthConfig Config) (st : State AuthConfig Config)
    (opt : Options AuthConfig Config) (e : GoError)
    (h : env.NewServer opt.HTTP opt.Auth = .error e) :
    run env st opt =
      (st.emit Event.NewServer, .error (GoError.wrap "failed to init server: " e)) := by
  unfold run
  simp only [h]

theorem closure_ok (env : Env AuthConfig Config) (f : Fs) (st : State AuthConfig Config)
    (s : Server) (h : env.NewServer st.Opt.HTTP st.Opt.Auth = .ok s) :
    closure env f st =
      (⟨st.Opt, st.trace ++ [Event.newServer f, Event.NewServer,
          Event.Use s.Router "Server" ("rclone/" ++ env.Version), Event.Serve s,
          Event.Bind s.Router, Event.Wait s]⟩, none) := by
  unfold closure
  have h1 : env.NewServer (st.emit (Event.newServer f)).Opt.HTTP
      (st.emit (Event.newServer f)).Opt.Auth = .ok s := h
  show (match run env (st.emit (Event.newServer f)) (st.emit (Event.newServer f)).Opt with
    | (st2, .error err) => (st2, some err)
    | (st2, .ok sc) =>
      ((st2.emit (Event.Bind sc.server.Router)).emit (Event.Wait sc.server), none)) = _
  rw [run_ok env _ _ s h1]
  simp only [State.emit, List.append_assoc, List.cons_append, List.nil_append]

theorem closure_error (env : Env AuthConfig Config) (f : Fs) (st : State AuthConfig Config)
    (e : GoError) (h : env.NewServer st.Opt.HTTP st.Opt.Auth = .error e) :
    closure env f st =
      (⟨st.Opt, st.trace ++ [Event.newServer f, Event.NewServer]⟩,
        some (GoError.wrap "failed to init server: " e)) := by
  unfold closure
  have h1 : env.NewServer (st.emit (Event.newServer f)).Opt.HTTP
      (st.emit (Event.newServer f)).Opt.Auth = .error e := h
  show (match run env (st.emit (Event.newServer f)) (st.emit (Event.newServer f)).Opt with
    | (st2, .error err) => (st2, some err)
    | (st2, .ok sc) =>
      ((st2.emit (Event.Bind sc.server.Router)).emit (Event.Wait sc.server), none)) = _
  rw [run_error env _ _ e h1]
  simp only [State.emit, List.append_assoc, List.cons_append, List.nil_append]

theorem closure_Opt (env : Env AuthConfig Config) (f : Fs) (st : State AuthConfig Config) :
    (closure env f st).1.Opt = st.Opt := by
  cases h : env.NewServer st.Opt.HTTP st.Opt.Auth with
  | error e => rw [closure_error env f st e h]
  | ok s => rw [closure_ok env f st s h]

theorem RunE_of_resolve_error (env : Env AuthConfig Config) (f : Fs)
    (st : State AuthConfig Config) (e : GoError) (h : (resolveHash env f st).2 = some e) :
    RunE env f st = ⟨(resolveHash env f st).1, some e, none⟩ := by
  unfold RunE
  rcases hr : resolveHash env f st with ⟨st1, r⟩
  rw [hr] at h
  simp only at h
  subst h
  rfl

theorem RunE_of_resolve_ok (env : Env AuthConfig Config) (f : Fs)
    (st : State AuthConfig Config) (h : (resolveHash env f st).2 = none) :
    RunE env f st =
      ⟨(closure env f (resolveHash env f st).1).1, none,
        (closure env f (resolveHash env f st).1).2⟩ := by
  unfold RunE
  rcases hr : resolveHash env f st with ⟨st1, r⟩
  rw [hr] at h
  simp only at h
  subst h
  rfl

theorem RunE_trace_cases (env : Env AuthConfig Config) (f : Fs)
    (st : State AuthConfig Config) :
    (RunE env f st).st.trace = st.trace ∨
    (RunE env f st).st.trace = st.trace ++ [Event.newServer f, Event.NewServer] ∨
    ∃ s, (RunE env f st).st.trace = st.trace ++ [Event.newServer f, Event.NewServer,
      Event.Use s.Router "Server" ("rclone/" ++ env.Version), Event.Serve s,
      Event.Bind s.Router, Event.Wait s] := by
  have ht := resolveHash_trace env f st
  cases hr : (resolveHash env f st).2 with
  | some e =>
    left
    rw [RunE_of_resolve_error env f st e hr]
    exact ht
  | none =>
    right
    rw [RunE_of_resolve_ok env f st hr]
    cases hs : env.NewServer (resolveHash env f st).1.Opt.HTTP
        (resolveHash env f st).1.Opt.Auth with
    | error e =>
      left
      rw [closure_error env f _ e hs]
      show (resolveHash env f st).1.trace ++ _ = _
      rw [ht]
    | ok s =>
      right
      refine ⟨s, ?_⟩
      rw [closure_ok env f _ s hs]
      show (resolveHash env f st).1.trace ++ _ = _
      rw [ht]

theorem GetOne_fold_mem (t : List HashType) (h : HashType) :
    t.foldl (fun a b => if b.id < a.id then b else a) h ∈ h :: t := by
  induction t generalizing h with
  | nil => simp
  | cons x t ih =>
    simp only [List.foldl_cons]
    have := ih (if x.id < h.id then x else h)
    rcases List.mem_cons.mp this with h1 | h1
    · rw [h1]
      split
      · simp
      · simp
    · exact List.mem_cons_of_mem _ (List.mem_cons_of_mem _ h1)

theorem GetOne_fold_le (t : List HashType) (h : HashType) :
    (t.foldl (fun a b => if b.id < a.id then b else a) h).id ≤ h.id ∧
    ∀ x ∈ t, (t.foldl (fun a b => if b.id < a.id then b else a) h).id ≤ x.id := by
  induction t generalizing h with
  | nil => simp
  | cons x t ih =>
    simp only [List.foldl_cons]
    obtain ⟨h1, h2⟩ := ih (if x.id < h.id then x else h)
    have h3 : (if x.id < h.id then x else h).id ≤ h.id ∧
        (if x.id < h.id then x else h).id ≤ x.id := by
      split
      · omega
      · omega
    refine ⟨le_trans h1 h3.1, ?_⟩
    intro y hy
    rcases List.mem_cons.mp hy with h4 | h4
    · rw [h4]
      exact le_trans h1 h3.2
    · exact h2 y h4

theorem GetOne_mem (s : List HashType) (hne : s ≠ []) : GetOne s ∈ s := by
  cases s with
  | nil => exact absurd rfl hne
  | cons h t => exact GetOne_fold_mem t h

theorem GetOne_le (s : List HashType) (x : HashType) (hx : x ∈ s) :
    (GetOne s).id ≤ x.id := by
  cases s with
  | nil => simp at hx
  | cons h t =>
    rcases List.mem_cons.mp hx with h1 | h1
    · rw [h1]
      exact (GetOne_fold_le t h).1
    · exact (GetOne_fold_le t h).2 x h1

theorem GetOne_congr (s s' : List HashType) (hne : s ≠ [])
    (hsame : ∀ h, h ∈ s' ↔ h ∈ s) : GetOne s' = GetOne s := by
  have hm : GetOne s ∈ s := GetOne_mem s hne
  have hne' : s' ≠ [] := by
    intro h0
    rw [h0] at hsame
    exact absurd ((hsame _).mpr hm) (List.not_mem_nil _)
  have hm' : GetOne s' ∈ s' := GetOne_mem s' hne'
  have h1 := GetOne_le s (GetOne s') ((hsame _).mp hm')
  have h2 := GetOne_le s' (GetOne s) ((hsame _).mpr hm)
  have : (GetOne s').id = (GetOne s).id := le_antisymm h2 h1
  cases hs : GetOne s
  cases hs' : GetOne s'
  rw [hs, hs'] at this
  simp only [HashType.mk.injEq]
  exact this

theorem resolveHash_withAuthPair (env : Env AuthConfig Config) (f : Fs)
    (st : State AuthConfig Config) (tokens : List String) :
    resolveHash env f (st.withAuthPair tokens) =
      ((resolveHash env f st).1.withAuthPair tokens, (resolveHash env f st).2) := by
  unfold resolveHash
  show (if st.Opt.hashName = "auto" then _ else if st.Opt.hashName ≠ "" then _ else _) = _
  split
  · rfl
  · split <;> rfl

theorem closure_withAuthPair (env : Env AuthConfig Config) (f : Fs)
    (st : State AuthConfig Config) (tokens : List String) :
    closure env f (st.withAuthPair tokens) =
      ((closure env f st).1.withAuthPair tokens, (closure env f st).2) := by
  cases h : env.NewServer st.Opt.HTTP st.Opt.Auth with
  | error e =>
    have h1 : env.NewServer (st.withAuthPair tokens).Opt.HTTP
        (st.withAuthPair tokens).Opt.Auth = .error e := h
    rw [closure_error env f st e h, closure_error env f _ e h1]
    rfl
  | ok s =>
    have h1 : env.NewServer (st.withAuthPair tokens).Opt.HTTP
        (st.withAuthPair tokens).Opt.Auth = .ok s := h
    rw [closure_ok env f st s h, closure_ok env f _ s h1]
    rfl

theorem RunE_withAuthPair (env : Env AuthConfig Config) (f : Fs)
    (st : State AuthConfig Config) (tokens : List String) :
    (RunE env f (st.withAuthPair tokens)).err = (RunE env f st).err ∧
    (RunE env f (st.withAuthPair tokens)).cmdErr = (RunE env f st).cmdErr ∧
    (RunE env f (st.withAuthPair tokens)).st.trace = (RunE env f st).st.trace ∧
    (RunE env f (st.withAuthPair tokens)).st.Opt.authPair = tokens := by
  have hres := resolveHash_withAuthPair env f st tokens
  cases hr : (resolveHash env f st).2 with
  | some e =>
    have hr1 : (resolveHash env f (st.withAuthPair tokens)).2 = some e := by rw [hres]; exact hr
    rw [RunE_of_resolve_error env f st e hr, RunE_of_resolve_error env f _ e hr1, hres]
    exact ⟨rfl, rfl, rfl, rfl⟩
  | none =>
    have hr1 : (resolveHash env f (st.withAuthPair tokens)).2 = none := by rw [hres]; exact hr
    rw [RunE_of_resolve_ok env f st hr, RunE_of_resolve_ok env f _ hr1, hres]
    show none = none ∧
      (closure env f ((resolveHash env f st).1.withAuthPair tokens)).2 = _ ∧
      (closure env f ((resolveHash env f st).1.withAuthPair tokens)).1.trace = _ ∧
      (closure env f ((resolveHash env f st).1.withAuthPair tokens)).1.Opt.authPair = _
    rw [closure_withAuthPair]
    exact ⟨rfl, rfl, rfl, rfl⟩

theorem parseFlags_withAuthPair (overrides : List (Flag AuthConfig Config))
    (o : Options AuthConfig Config) (t : List String) :
    parseFlags (o.withAuthPair t) overrides =
      (parseFlags o (dropAuthkeys overrides)).withAuthPair
        (t ++ overrides.filterMap Flag.authkey) := by
  induction overrides generalizing o t with
  | nil => simp [parseFlags, dropAuthkeys, Options.withAuthPair]
  | cons x rest ih =>
    cases x with
    | s3Authkey v =>
      have h1 : parseFlags (o.withAuthPair t) (Flag.s3Authkey v :: rest) =
          parseFlags (o.withAuthPair (t ++ [v])) rest := rfl
      have h2 : dropAuthkeys (Flag.s3Authkey v :: rest) = dropAuthkeys rest := rfl
      have h3 : (Flag.s3Authkey v :: rest).filterMap Flag.authkey =
          v :: rest.filterMap Flag.authkey := rfl
      rw [h1, h2, h3, ih]
      simp
    | auth g =>
      have h1 : parseFlags (o.withAuthPair t) (Flag.auth g :: rest) =
          parseFlags ((applyFlag o (Flag.auth g)).withAuthPair t) rest := rfl
      have h2 : parseFlags o (dropAuthkeys (Flag.auth g :: rest)) =
          parseFlags (applyFlag o (Flag.auth g)) (dropAuthkeys rest) := rfl
      have h3 : (Flag.auth g :: rest).filterMap Flag.authkey =
          rest.filterMap Flag.authkey := rfl
      rw [h1, h2, h3, ih]
    | http g =>
      have h1 : parseFlags (o.withAuthPair t) (Flag.http g :: rest) =
          parseFlags ((applyFlag o (Flag.http g)).withAuthPair t) rest := rfl
      have h2 : parseFlags o (dropAuthkeys (Flag.http g :: rest)) =
          parseFlags (applyFlag o (Flag.http g)) (dropAuthkeys rest) := rfl
      have h3 : (Flag.http g :: rest).filterMap Flag.authkey =
          rest.filterMap Flag.authkey := rfl
      rw [h1, h2, h3, ih]
    | forcePathStyle v =>
      have h1 : parseFlags (o.withAuthPair t) (Flag.forcePathStyle v :: rest) =
          parseFlags ((applyFlag o (Flag.forcePathStyle v)).withAuthPair t) rest := rfl
      have h2 : parseFlags o (dropAuthkeys (Flag.forcePathStyle v :: rest)) =
          parseFlags (applyFlag o (Flag.forcePathStyle v)) (dropAuthkeys rest) := rfl
      have h3 : (Flag.forcePathStyle v :: rest : List (Flag AuthConfig Config)).filterMap
          Flag.authkey = rest.filterMap Flag.authkey := rfl
      rw [h1, h2, h3, ih]
    | etagHash v =>
      have h1 : parseFlags (o.withAuthPair t) (Flag.etagHash v :: rest) =
          parseFlags ((applyFlag o (Flag.etagHash v)).withAuthPair t) rest := rfl
      have h2 : parseFlags o (dropAuthkeys (Flag.etagHash v :: rest)) =
          parseFlags (applyFlag o (Flag.etagHash v)) (dropAuthkeys rest) := rfl
      have h3 : (Flag.etagHash v :: rest : List (Flag AuthConfig Config)).filterMap
          Flag.authkey = rest.filterMap Flag.authkey := rfl
      rw [h1, h2, h3, ih]
    | noCleanup v =>
      have h1 : parseFlags (o.withAuthPair t) (Flag.noCleanup v :: rest) =
          parseFlags ((applyFlag o (Flag.noCleanup v)).withAuthPair t) rest := rfl
      have h2 : parseFlags o (dropAuthkeys (Flag.noCleanup v :: rest)) =
          parseFlags (applyFlag o (Flag.noCleanup v)) (dropAuthkeys rest) := rfl
      have h3 : (Flag.noCleanup v :: rest : List (Flag AuthConfig Config)).filterMap
          Flag.authkey = rest.filterMap Flag.authkey := rfl
      rw [h1, h2, h3, ih]

theorem parseFlags_split (opt : Options AuthConfig Config)
    (overrides : List (Flag AuthConfig Config)) :
    State.start (parseFlags opt overrides) =
      (State.start (parseFlags opt (dropAuthkeys overrides))).withAuthPair
        (opt.authPair ++ overrides.filterMap Flag.authkey) := by
  have h := parseFlags_withAuthPair overrides opt opt.authPair
  have h0 : opt.withAuthPair opt.authPair = opt := rfl
  rw [h0] at h
  rw [h]
  rfl

theorem parseFlags_authPair (opt : Options AuthConfig Config)
    (overrides : List (Flag AuthConfig Config)) :
    (parseFlags opt overrides).authPair =
      opt.authPair ++ overrides.filterMap Flag.authkey := by
  have h := parseFlags_withAuthPair overrides opt opt.authPair
  have h0 : opt.withAuthPair opt.authPair = opt := rfl
  rw [h0] at h
  rw [h]
  rfl

theorem filterMap_authkey_map (tokens : List String) :
    (tokens.map (Flag.s3Authkey : String → Flag AuthConfig Config)).filterMap Flag.authkey =
      tokens := by
  induction tokens with
  | nil => rfl
  | cons v rest ih =>
    show v :: (rest.map (Flag.s3Authkey : String → Flag AuthConfig Config)).filterMap
      Flag.authkey = v :: rest
    rw [ih]

/-! ## Hash negotiation -/

/-- C1: with a token that is neither `auto` nor empty, the resolution step of
`RunE` (with `Set` as the specification describes it) either succeeds and
leaves in `Opt.hashType` exactly the hash kind the token names, or fails with
an error, which `RunE` returns; the result does not depend on the filesystem,
and a `RunE` that returns no error has resolved to the named kind. -/
theorem resolveHash_named_exact (names : String → Option HashType)
    (NewServer : Config → AuthConfig → Except GoError Server) (Version : String)
    (f : Fs) (st : State AuthConfig Config)
    (hauto : st.Opt.hashName ≠ "auto") (hempty : st.Opt.hashName ≠ "") :
    (((resolveHash (specEnv names NewServer Version) f st).2 = none ∧
        names st.Opt.hashName =
          some (resolveHash (specEnv names NewServer Version) f st).1.Opt.hashType) ∨
      (∃ e, (resolveHash (specEnv names NewServer Version) f st).2 = some e ∧
        (RunE (specEnv names NewServer Version) f st).err = some e)) ∧
    (∀ f0 : Fs, resolveHash (specEnv names NewServer Version) f0 st =
      resolveHash (specEnv names NewServer Version) f st) ∧
    ((RunE (specEnv names NewServer Version) f st).err = none →
      names st.Opt.hashName =
        some (RunE (specEnv names NewServer Version) f st).st.Opt.hashType) := by
  have key : ∀ f0 : Fs, resolveHash (specEnv names NewServer Version) f0 st =
      (st.setHashType (HashType.Set names st.Opt.hashType st.Opt.hashName).1,
        (HashType.Set names st.Opt.hashType st.Opt.hashName).2) := by
    intro f0
    unfold resolveHash
    rw [if_neg hauto, if_pos hempty]
    rfl
  have hdisj : ((resolveHash (specEnv names NewServer Version) f st).2 = none ∧
        names st.Opt.hashName =
          some (resolveHash (specEnv names NewServer Version) f st).1.Opt.hashType) ∨
      (∃ e, (resolveHash (specEnv names NewServer Version) f st).2 = some e ∧
        (RunE (specEnv names NewServer Version) f st).err = some e) := by
    cases hn : names st.Opt.hashName with
    | none =>
      right
      have h2 : (resolveHash (specEnv names NewServer Version) f st).2 =
          some (GoError.msg ("UnrecognizedHashAlgorithm: " ++ st.Opt.hashName)) := by
        rw [key f]
        simp only [HashType.Set, hn]
      refine ⟨_, h2, ?_⟩
      rw [RunE_of_resolve_error _ f st _ h2]
    | some k =>
      left
      rw [key f]
      simp only [HashType.Set, hn, State.setHashType, and_self]
  refine ⟨hdisj, ?_, ?_⟩
  · intro f0
    rw [key f0, key f]
  · intro herr
    rcases hdisj with ⟨h1, h2⟩ | ⟨e, h1, h2⟩
    · rw [RunE_of_resolve_ok _ f st h1]
      show names st.Opt.hashName = some (closure _ f _).1.Opt.hashType
      rw [closure_Opt]
      exact h2
    · rw [h2] at herr
      exact absurd herr (by simp)

/-- Witness of C1: the token `MD5` given while `Opt.hashType` holds kind `5`
resolves to `hash.MD5`. -/
theorem resolveHash_named_exact_witness :
    ("MD5" ≠ "auto" ∧ "MD5" ≠ "") ∧
    (((resolveHash sampleEnv sampleFs
          (State.start ⟨(), (), true, "MD5", ⟨5⟩, [], false⟩)).2 = none ∧
        sampleNames "MD5" = some (resolveHash sampleEnv sampleFs
          (State.start ⟨(), (), true, "MD5", ⟨5⟩, [], false⟩)).1.Opt.hashType) ∨
      (∃ e, (resolveHash sampleEnv sampleFs
          (State.start ⟨(), (), true, "MD5", ⟨5⟩, [], false⟩)).2 = some e ∧
        (RunE sampleEnv sampleFs
          (State.start ⟨(), (), true, "MD5", ⟨5⟩, [], false⟩)).err = some e)) :=
  ⟨by decide,
    (resolveHash_named_exact sampleNames sampleNewServer "v1.62.0" sampleFs
      (State.start ⟨(), (), true, "MD5", ⟨5⟩, [], false⟩) (by decide) (by decide)).1⟩

/-- C2: evaluation of the code at `--etag-hash=""` on the defaults: neither
branch of the resolution step runs, so `Opt.hashType` keeps the default
`hash.MD5`, which is not `hash.None`, whatever the filesystem advertises. -/
theorem resolveHash_empty_keeps_default (env : Env AuthConfig Config) (f : Fs)
    (a : AuthConfig) (c : Config) :
    (resolveHash env f (State.start (parseFlags (Opt a c) [Flag.etagHash ""]))).2 = none ∧
    (resolveHash env f
      (State.start (parseFlags (Opt a c) [Flag.etagHash ""]))).1.Opt.hashType = HashType.MD5 ∧
    (RunE env f
      (State.start (parseFlags (Opt a c) [Flag.etagHash ""]))).st.Opt.hashType = HashType.MD5 ∧
    HashType.MD5 ≠ HashType.None := by
  have h0 : resolveHash env f (State.start (parseFlags (Opt a c) [Flag.etagHash ""])) =
      (State.start (parseFlags (Opt a c) [Flag.etagHash ""]), none) := by
    unfold resolveHash
    have e1 : (State.start (parseFlags (Opt a c) [Flag.etagHash ""])).Opt.hashName = "" := rfl
    rw [e1, if_neg (by decide), if_neg (by decide)]
  refine ⟨by rw [h0], by rw [h0]; rfl, ?_, by decide⟩
  rw [RunE_of_resolve_ok env f _ (by rw [h0])]
  show (closure env f _).1.Opt.hashType = _
  rw [closure_Opt, h0]
  rfl

/-- C3: with the token `auto` and a filesystem that advertises at least one
hash kind, the resolution step (with `GetOne` as the specification describes
it) succeeds with a kind that the filesystem advertises; any other run with
the token `auto` and the same advertised set resolves to the same kind,
whatever `Opt.hashType` was before; a filesystem advertising only `MD5`
resolves to `MD5`. -/
theorem resolveHash_auto_member (names : String → Option HashType)
    (NewServer : Config → AuthConfig → Except GoError Server) (Version : String)
    (f : Fs) (st : State AuthConfig Config)
    (hauto : st.Opt.hashName = "auto") (hne : f.Hashes ≠ []) :
    (resolveHash (specEnv names NewServer Version) f st).2 = none ∧
    (resolveHash (specEnv names NewServer Version) f st).1.Opt.hashType ∈ f.Hashes ∧
    (∀ (f0 : Fs) (st0 : State AuthConfig Config), st0.Opt.hashName = "auto" →
      (∀ h, h ∈ f0.Hashes ↔ h ∈ f.Hashes) →
      (resolveHash (specEnv names NewServer Version) f0 st0).1.Opt.hashType =
        (resolveHash (specEnv names NewServer Version) f st).1.Opt.hashType) ∧
    ((∀ h ∈ f.Hashes, h = HashType.MD5) →
      (resolveHash (specEnv names NewServer Version) f st).1.Opt.hashType = HashType.MD5) := by
  have key : ∀ (f0 : Fs) (st0 : State AuthConfig Config), st0.Opt.hashName = "auto" →
      resolveHash (specEnv names NewServer Version) f0 st0 =
        (st0.setHashType (GetOne f0.Hashes), none) := by
    intro f0 st0 h0
    unfold resolveHash
    rw [if_pos h0]
    rfl
  rw [key f st hauto]
  refine ⟨rfl, GetOne_mem f.Hashes hne, ?_, ?_⟩
  · intro f0 st0 h0 hsame
    rw [key f0 st0 h0]
    exact GetOne_congr f.Hashes f0.Hashes hne hsame
  · intro honly
    exact honly _ (GetOne_mem f.Hashes hne)

/-- Witness of C3: a filesystem advertising kind `2` and `MD5`, with
`Opt.hashType` at its default, resolves to an advertised kind. -/
theorem resolveHash_auto_member_witness :
    ("auto" = "auto" ∧ sampleFs.Hashes ≠ []) ∧
    (resolveHash sampleEnv sampleFs
        (State.start (parseFlags (Opt () ()) [Flag.etagHash "auto"]))).2 = none ∧
    (resolveHash sampleEnv sampleFs
        (State.start (parseFlags (Opt () ()) [Flag.etagHash "auto"]))).1.Opt.hashType ∈
      sampleFs.Hashes :=
  ⟨by decide,
    (resolveHash_auto_member sampleNames sampleNewServer "v1.62.0" sampleFs
      (State.start (parseFlags (Opt () ()) [Flag.etagHash "auto"])) (by decide) (by decide)).1,
    (resolveHash_auto_member sampleNames sampleNewServer "v1.62.0" sampleFs
      (State.start (parseFlags (Opt () ()) [Flag.etagHash "auto"])) (by decide)
      (by decide)).2.1⟩

/-! ## Startup errors -/

/-- C4: when the token is not empty, not `auto`, and `Set` rejects it with
error `e`, `RunE` returns `e`, the closure is never run (no error of its own)
and no effect is added to the trace: no S3 handler, no HTTP server, no
middleware, no `Serve`, no `Wait`. -/
theorem RunE_unrecognized_aborts (env : Env AuthConfig Config) (f : Fs)
    (st : State AuthConfig Config) (e : GoError)
    (hauto : st.Opt.hashName ≠ "auto") (hempty : st.Opt.hashName ≠ "")
    (hrej : (env.Set st.Opt.hashType st.Opt.hashName).2 = some e) :
    (RunE env f st).err = some e ∧
    (RunE env f st).cmdErr = none ∧
    (RunE env f st).st.trace = st.trace := by
  have h2 : (resolveHash env f st).2 = some e := by
    unfold resolveHash
    rw [if_neg hauto, if_pos hempty]
    exact hrej
  rw [RunE_of_resolve_error env f st e h2]
  exact ⟨rfl, rfl, resolveHash_trace env f st⟩

/-- Witness of C4: `--etag-hash=bogus` on the defaults. -/
theorem RunE_unrecognized_aborts_witness :
    ("bogus" ≠ "auto" ∧ "bogus" ≠ "" ∧
      (sampleEnv.Set HashType.MD5 "bogus").2 =
        some (GoError.msg "UnrecognizedHashAlgorithm: bogus")) ∧
    (RunE sampleEnv sampleFs
        (State.start (parseFlags (Opt () ()) [Flag.etagHash "bogus"]))).err =
      some (GoError.msg "UnrecognizedHashAlgorithm: bogus") ∧
    (RunE sampleEnv sampleFs
        (State.start (parseFlags (Opt () ()) [Flag.etagHash "bogus"]))).cmdErr = none ∧
    (RunE sampleEnv sampleFs
        (State.start (parseFlags (Opt () ()) [Flag.etagHash "bogus"]))).st.trace = [] :=
  ⟨by decide,
    RunE_unrecognized_aborts sampleEnv sampleFs
      (State.start (parseFlags (Opt () ()) [Flag.etagHash "bogus"]))
      (GoError.msg "UnrecognizedHashAlgorithm: bogus") (by decide) (by decide) (by decide)⟩

/-- C5: when `libhttp.NewServer` fails with `e`, `run` returns no server and the
error `e` wrapped with the context `failed to init server: `, having done
nothing but the construction attempt (no middleware, no `Serve`); the closure
returns that error, and its only effects are the creation of the S3 handler
and the construction attempt (no `Bind`, no `Wait`). -/
theorem run_construction_failure (env : Env AuthConfig Config) (f : Fs)
    (st st0 : State AuthConfig Config) (e : GoError)
    (hfail : env.NewServer st.Opt.HTTP st.Opt.Auth = .error e) :
    run env st0 st.Opt =
      (⟨st0.Opt, st0.trace ++ [Event.NewServer]⟩,
        .error (GoError.wrap "failed to init server: " e)) ∧
    (GoError.wrap "failed to init server: " e).Unwrap = some e ∧
    (GoError.wrap "failed to init server: " e).Error = "failed to init server: " ++ e.Error ∧
    closure env f st =
      (⟨st.Opt, st.trace ++ [Event.newServer f, Event.NewServer]⟩,
        some (GoError.wrap "failed to init server: " e)) :=
  ⟨run_error env st0 st.Opt e hfail, rfl, rfl, closure_error env f st e hfail⟩

/-- Witness of C5: the defaults with a server construction that fails. -/
theorem run_construction_failure_witness :
    failingEnv.NewServer () () = .error (GoError.msg "listen tcp: address already in use") ∧
    closure failingEnv sampleFs (State.start (Opt () ())) =
      (⟨Opt () (), [Event.newServer sampleFs, Event.NewServer]⟩,
        some (GoError.wrap "failed to init server: "
          (GoError.msg "listen tcp: address already in use"))) :=
  ⟨rfl,
    (run_construction_failure failingEnv sampleFs (State.start (Opt () ()))
      (State.start (Opt () ())) (GoError.msg "listen tcp: address already in use") rfl).2.2.2⟩

/-! ## Lifecycle order -/

/-- C6, as stated, fails: on the defaults with a working server the startup
succeeds and its effects are, after the creation of the S3 handler,
`NewServer`, `Use`, `Serve`, `Bind`, `Wait`; this is not the order the
specification gives, and `Serve` comes before `Bind`. -/
theorem lifecycle_spec_order_fails :
    (RunE sampleEnv sampleFs (State.start (Opt () ()))).err = none ∧
    (RunE sampleEnv sampleFs (State.start (Opt () ()))).cmdErr = none ∧
    (RunE sampleEnv sampleFs (State.start (Opt () ()))).st.trace =
      Event.newServer sampleFs :: codeOrder ⟨7⟩ "v1.62.0" ∧
    (RunE sampleEnv sampleFs (State.start (Opt () ()))).st.trace ≠
      Event.newServer sampleFs :: specOrder ⟨7⟩ "v1.62.0" ∧
    List.indexOf (Event.Serve ⟨7⟩)
        (RunE sampleEnv sampleFs (State.start (Opt () ()))).st.trace <
      List.indexOf (Event.Bind ⟨7⟩)
        (RunE sampleEnv sampleFs (State.start (Opt () ()))).st.trace := by
  decide

/-- C6, amended: in every successful startup (neither `RunE` nor the closure
reports an error) the server was constructed and the effects added to the
trace are the creation of the S3 handler followed by `NewServer`,
`router.Use` of the `Server` header, `server.Serve()`, `s.Bind(router)`,
`server.Wait()`, in this order. -/
theorem lifecycle_code_order (env : Env AuthConfig Config) (f : Fs)
    (st : State AuthConfig Config)
    (herr : (RunE env f st).err = none) (hcmd : (RunE env f st).cmdErr = none) :
    ∃ s, env.NewServer st.Opt.HTTP st.Opt.Auth = .ok s ∧
      (RunE env f st).st.trace = st.trace ++ Event.newServer f :: codeOrder s env.Version := by
  cases hr : (resolveHash env f st).2 with
  | some e =>
    rw [RunE_of_resolve_error env f st e hr] at herr
    exact absurd herr (by simp)
  | none =>
    rw [RunE_of_resolve_ok env f st hr] at hcmd ⊢
    obtain ⟨hH, hA⟩ := resolveHash_config env f st
    cases hs : env.NewServer st.Opt.HTTP st.Opt.Auth with
    | error e =>
      have hs1 : env.NewServer (resolveHash env f st).1.Opt.HTTP
          (resolveHash env f st).1.Opt.Auth = .error e := by rw [hH, hA]; exact hs
      rw [closure_error env f _ e hs1] at hcmd
      exact absurd hcmd (by simp)
    | ok s =>
      have hs1 : env.NewServer (resolveHash env f st).1.Opt.HTTP
          (resolveHash env f st).1.Opt.Auth = .ok s := by rw [hH, hA]; exact hs
      refine ⟨s, rfl, ?_⟩
      rw [closure_ok env f _ s hs1]
      show (resolveHash env f st).1.trace ++ _ = _
      rw [resolveHash_trace]
      rfl

/-- Witness of C6, amended: the defaults with a working server. -/
theorem lifecycle_code_order_witness :
    ((RunE sampleEnv sampleFs (State.start (Opt () ()))).err = none ∧
      (RunE sampleEnv sampleFs (State.start (Opt () ()))).cmdErr = none) ∧
    ∃ s, sampleEnv.NewServer () () = .ok s ∧
      (RunE sampleEnv sampleFs (State.start (Opt () ()))).st.trace =
        [] ++ Event.newServer sampleFs :: codeOrder s "v1.62.0" :=
  ⟨by decide,
    lifecycle_code_order sampleEnv sampleFs (State.start (Opt () ())) (by decide) (by decide)⟩

/-- C7: whenever `s.Bind(r)` occurs in an execution of `RunE`, the effects
before it include `r.Use` of the middleware setting the header `Server` to
`rclone/` followed by the version, on the same router `r`; and in every call
of `run` in which the server is constructed, that middleware is installed on
the server's router, whatever the options. -/
theorem middleware_precedes_bind (env : Env AuthConfig Config) (f : Fs)
    (opt : Options AuthConfig Config) (r : Router)
    (hbind : Event.Bind r ∈ (RunE env f (State.start opt)).st.trace) :
    (∃ pre post, (RunE env f (State.start opt)).st.trace = pre ++ Event.Bind r :: post ∧
      Event.Use r "Server" ("rclone/" ++ env.Version) ∈ pre ∧ Event.Bind r ∉ pre) ∧
    (∀ (st0 : State AuthConfig Config) (opt0 : Options AuthConfig Config) (s : Server),
      env.NewServer opt0.HTTP opt0.Auth = .ok s →
      Event.Use s.Router "Server" ("rclone/" ++ env.Version) ∈ (run env st0 opt0).1.trace) := by
  constructor
  · rcases RunE_trace_cases env f (State.start opt) with h | h | ⟨s, h⟩
    · rw [h] at hbind
      simp [State.start] at hbind
    · rw [h] at hbind
      simp [State.start] at hbind
    · rw [h] at hbind ⊢
      simp only [State.start, List.nil_append, List.mem_cons, Event.Bind.injEq,
        List.not_mem_nil, or_false, false_or, reduceCtorEq] at hbind
      subst hbind
      refine ⟨[Event.newServer f, Event.NewServer,
        Event.Use s.Router "Server" ("rclone/" ++ env.Version), Event.Serve s],
        [Event.Wait s], ?_, ?_, ?_⟩
      · simp [State.start]
      · simp
      · simp
  · intro st0 opt0 s hs
    rw [run_ok env st0 opt0 s hs]
    simp [State.emit]

/-- Witness of C7: the defaults with a working server bind router `7`. -/
theorem middleware_precedes_bind_witness :
    Event.Bind ⟨7⟩ ∈ (RunE sampleEnv sampleFs (State.start (Opt () ()))).st.trace ∧
    ∃ pre post, (RunE sampleEnv sampleFs (State.start (Opt () ()))).st.trace =
        pre ++ Event.Bind ⟨7⟩ :: post ∧
      Event.Use ⟨7⟩ "Server" ("rclone/" ++ sampleEnv.Version) ∈ pre ∧ Event.Bind ⟨7⟩ ∉ pre :=
  ⟨by decide,
    (middleware_precedes_bind sampleEnv sampleFs (Opt () ()) ⟨7⟩ (by decide)).1⟩

/-! ## Credential pairs -/

/-- C8, as stated, fails: `--s3-authkey=badtoken` (a token without a comma) on
the defaults, with a working server, stores the token in `Opt.authPair`; no
error is reported by `RunE` or by the closure, and `Serve` is called. -/
theorem authkey_malformed_not_rejected :
    (parseFlags (Opt () ()) [Flag.s3Authkey "badtoken"]).authPair = ["badtoken"] ∧
    "badtoken".toList.count ',' = 0 ∧
    (RunE sampleEnv sampleFs
      (State.start (parseFlags (Opt () ()) [Flag.s3Authkey "badtoken"]))).err = none ∧
    (RunE sampleEnv sampleFs
      (State.start (parseFlags (Opt () ()) [Flag.s3Authkey "badtoken"]))).cmdErr = none ∧
    Event.Serve ⟨7⟩ ∈ (RunE sampleEnv sampleFs
      (State.start (parseFlags (Opt () ()) [Flag.s3Authkey "badtoken"]))).st.trace := by
  decide

/-- C8, amended: credential pairs are not validated by the bootstrap. For
every command line, `Opt.authPair` after the flags are read is its initial
value followed by exactly the `--s3-authkey` values, in order and as given,
whether well-formed or not; `RunE` then returns the same error, the closure
reports the same error and the same effects happen as for the command line
without any `--s3-authkey`, and as with any other list of tokens in
`Opt.authPair`; the tokens stay in `Opt.authPair` unchanged. -/
theorem authkey_not_inspected (env : Env AuthConfig Config) (f : Fs)
    (st : State AuthConfig Config) (tokens : List String)
    (opt : Options AuthConfig Config) (overrides : List (Flag AuthConfig Config)) :
    ((RunE env f (st.withAuthPair tokens)).err = (RunE env f st).err ∧
      (RunE env f (st.withAuthPair tokens)).cmdErr = (RunE env f st).cmdErr ∧
      (RunE env f (st.withAuthPair tokens)).st.trace = (RunE env f st).st.trace ∧
      (RunE env f (st.withAuthPair tokens)).st.Opt.authPair = tokens) ∧
    (parseFlags opt overrides).authPair =
      opt.authPair ++ overrides.filterMap Flag.authkey ∧
    (parseFlags opt (tokens.map Flag.s3Authkey)).authPair = opt.authPair ++ tokens ∧
    ((RunE env f (State.start (parseFlags opt overrides))).err =
        (RunE env f (State.start (parseFlags opt (dropAuthkeys overrides)))).err ∧
      (RunE env f (State.start (parseFlags opt overrides))).cmdErr =
        (RunE env f (State.start (parseFlags opt (dropAuthkeys overrides)))).cmdErr ∧
      (RunE env f (State.start (parseFlags opt overrides))).st.trace =
        (RunE env f (State.start (parseFlags opt (dropAuthkeys overrides)))).st.trace ∧
      (RunE env f (State.start (parseFlags opt overrides))).st.Opt.authPair =
        opt.authPair ++ overrides.filterMap Flag.authkey) := by
  refine ⟨RunE_withAuthPair env f st tokens, parseFlags_authPair opt overrides, ?_, ?_⟩
  · rw [parseFlags_authPair, filterMap_authkey_map]
  · rw [parseFlags_split opt overrides]
    exact RunE_withAuthPair env f (State.start (parseFlags opt (dropAuthkeys overrides)))
      (opt.authPair ++ overrides.filterMap Flag.authkey)

/-! ## Defaults -/

/-- C9: with no override the options are `DefaultOpt`, in which
`pathBucketMode` is `true` and `noCleanup` is `false`; and when the name `MD5`
names the kind `hash.MD5`, the resolution step on the defaults succeeds and
leaves the options as they are, so `hashName` and `hashType` of the defaults
agree. -/
theorem defaults_consistent (a : AuthConfig) (c : Config)
    (names : String → Option HashType)
    (NewServer : Config → AuthConfig → Except GoError Server) (Version : String) (f : Fs)
    (hMD5 : names "MD5" = some HashType.MD5) :
    parseFlags (Opt a c) [] = DefaultOpt a c ∧
    (DefaultOpt a c).pathBucketMode = true ∧
    (DefaultOpt a c).noCleanup = false ∧
    (DefaultOpt a c).hashName = "MD5" ∧
    (DefaultOpt a c).hashType = HashType.MD5 ∧
    resolveHash (specEnv names NewServer Version) f (State.start (DefaultOpt a c)) =
      (State.start (DefaultOpt a c), none) := by
  refine ⟨rfl, rfl, rfl, rfl, rfl, ?_⟩
  unfold resolveHash
  have e1 : (State.start (DefaultOpt a c)).Opt.hashName = "MD5" := rfl
  rw [e1, if_neg (by decide), if_pos (by decide)]
  simp only [specEnv, HashType.Set, hMD5]
  rfl

/-- Witness of C9: the sample table of names knows `MD5`. -/
theorem defaults_consistent_witness :
    sampleNames "MD5" = some HashType.MD5 ∧
    parseFlags (Opt () ()) [] = DefaultOpt () () ∧
    (DefaultOpt () ()).pathBucketMode = true ∧
    (DefaultOpt () ()).noCleanup = false ∧
    (resolveHash sampleEnv sampleFs (State.start (DefaultOpt () ()))).1.Opt.hashType =
      (DefaultOpt () ()).hashType :=
  ⟨by decide,
    (defaults_consistent () () sampleNames sampleNewServer "v1.62.0" sampleFs (by decide)).1,
    (defaults_consistent () () sampleNames sampleNewServer "v1.62.0" sampleFs (by decide)).2.1,
    (defaults_consistent () () sampleNames sampleNewServer "v1.62.0" sampleFs (by decide)).2.2.1,
    by decide⟩

/-! ## Frame -/

/-- C10: the resolution step of `RunE` changes no field of `Opt` but
`hashType`, and adds no effect, whether it succeeds or fails; and `run`, which
gets the options by value, leaves the variable `Opt` as it is. -/
theorem resolveHash_frame (env : Env AuthConfig Config) (f : Fs)
    (st : State AuthConfig Config) (opt : Options AuthConfig Config) :
    (resolveHash env f st).1.Opt.hashName = st.Opt.hashName ∧
    (resolveHash env f st).1.Opt.pathBucketMode = st.Opt.pathBucketMode ∧
    (resolveHash env f st).1.Opt.authPair = st.Opt.authPair ∧
    (resolveHash env f st).1.Opt.noCleanup = st.Opt.noCleanup ∧
    (resolveHash env f st).1.Opt.Auth = st.Opt.Auth ∧
    (resolveHash env f st).1.Opt.HTTP = st.Opt.HTTP ∧
    (resolveHash env f st).1.trace = st.trace ∧
    (run env st opt).1.Opt = st.Opt := by
  refine ⟨?_, ?_, ?_, ?_, ?_, ?_, resolveHash_trace env f st, ?_⟩
  · unfold resolveHash
    split
    · rfl
    · split <;> rfl
  · unfold resolveHash
    split
    · rfl
    · split <;> rfl
  · unfold resolveHash
    split
    · rfl
    · split <;> rfl
  · unfold resolveHash
    split
    · rfl
    · split <;> rfl
  · exact (resolveHash_config env f st).2
  · exact (resolveHash_config env f st).1
  · cases hs : env.NewServer opt.HTTP opt.Auth with
    | error e => rw [run_error env st opt e hs]; rfl
    | ok s => rw [run_ok env st opt s hs]; rfl

end ServeS3
